import Mathlib

/-!
Verification of the Fusefy slide-presentation scripts.

The development shallowly embeds the behaviour-carrying parts of the three
source files:

* `src/js/slide-consistency.js` — the tooltip (info-box) lifecycle manager:
  viewport-aware positioning (`positionInfoBoxGlobal`) and the hover
  show/hide handlers installed by `setupGlobalHoverHandlers`;
* `src/js/slides-interactive.js` — the Storylane modal open/close pair
  (`showStoryLaneModal` / `closeStoryLaneModals`);
* the Storylane preloader script — `preloadStorylaneDemos` and
  `swapPreloadedIframe` over an explicit DOM-fragment state.

Pixel coordinates coming from `getBoundingClientRect` / `innerWidth` are
embedded as rationals (JavaScript numbers on these inputs behave as exact
rationals: only additions, halvings, `min` and `max` occur).  Event-driven
stateful code is embedded as explicit state-passing step functions.
-/

namespace Fusefy

/-! ## Geometry of `positionInfoBoxGlobal` (slide-consistency.js, lines 158-215) -/

/-- A DOM bounding client rectangle, as returned by
`getBoundingClientRect()`: `left`/`top` corner plus `width`/`height`. -/
structure Rect where
  left : ℚ
  top : ℚ
  width : ℚ
  height : ℚ
deriving DecidableEq, Repr

/-- `rect.right = rect.left + rect.width`, as in the DOM. -/
def Rect.right (r : Rect) : ℚ := r.left + r.width

/-- Which positioning class `positionInfoBoxGlobal` adds to the info box
(`left-side` or `right-side`). -/
inductive Side
  | leftSide
  | rightSide
deriving DecidableEq, Repr

/-- The effective info-box width: `infoBox.offsetWidth || 240`
(a measurement of `0` is falsy in JavaScript, so the default kicks in). -/
def infoBoxWidthOf (measured : ℚ) : ℚ := if measured = 0 then 240 else measured

/-- The effective info-box height: `infoBox.offsetHeight || 180`. -/
def infoBoxHeightOf (measured : ℚ) : ℚ := if measured = 0 then 180 else measured

/-- Result of one invocation of `positionInfoBoxGlobal`: the side class
added and the computed `left`/`top` fixed-position coordinates. -/
structure PosResult where
  side : Side
  leftPos : ℚ
  topPos : ℚ
deriving DecidableEq, Repr

/-- Embedding of `positionInfoBoxGlobal(infoBox, targetElement)`
(slide-consistency.js lines 158-215).  `windowWidth`/`windowHeight` are
`window.innerWidth`/`innerHeight`, `target` is the anchor's bounding
rectangle, `measuredWidth`/`measuredHeight` are the info box's
`offsetWidth`/`offsetHeight` as measured while temporarily invisible.
The temporary visibility/opacity juggling is measurement plumbing with no
effect on the computed coordinates and is elided. -/
def positionInfoBoxGlobal (windowWidth windowHeight : ℚ) (target : Rect)
    (measuredWidth measuredHeight : ℚ) : PosResult :=
  let infoBoxWidth := infoBoxWidthOf measuredWidth
  let infoBoxHeight := infoBoxHeightOf measuredHeight
  -- const shouldPositionOnRight = windowWidth >= 1280;
  let sideAndLeft : Side × ℚ :=
    if 1280 ≤ windowWidth then
      (Side.rightSide, min (windowWidth - infoBoxWidth - 10) (target.right + 10))
    else
      -- const isInRightHalf = (targetRect.left + targetRect.width/2) > windowWidth/2;
      if windowWidth / 2 < target.left + target.width / 2 then
        (Side.leftSide, max 10 (target.left - infoBoxWidth - 10))
      else
        (Side.rightSide, min (windowWidth - infoBoxWidth - 10) (target.right + 10))
  let centerY := target.top + target.height / 2
  let topP := centerY - infoBoxHeight / 2
  let finalTop := max 10 (min (windowHeight - infoBoxHeight - 10) topP)
  { side := sideAndLeft.1, leftPos := sideAndLeft.2, topPos := finalTop }

/-- C1: horizontal placement policy of `positionInfoBoxGlobal`.  At
viewport width ≥ 1280 the box goes right of the anchor with left edge
`min (anchorRight + 10) (viewportWidth - boxWidth - 10)`, hence never past
`viewportWidth - boxWidth - 10`; below 1280 the box goes on the side
opposite the anchor's horizontal half: anchor midpoint strictly in the
right half gives left side at `max 10 (anchorLeft - boxWidth - 10)`,
otherwise right side at `min (viewportWidth - boxWidth - 10)
(anchorRight + 10)`. -/
theorem positionInfoBox_horizontal_policy (ww wh : ℚ) (t : Rect) (mw mh : ℚ) :
    (1280 ≤ ww →
      (positionInfoBoxGlobal ww wh t mw mh).side = Side.rightSide ∧
      (positionInfoBoxGlobal ww wh t mw mh).leftPos
        = min (t.right + 10) (ww - infoBoxWidthOf mw - 10) ∧
      (positionInfoBoxGlobal ww wh t mw mh).leftPos ≤ ww - infoBoxWidthOf mw - 10) ∧
    (¬ 1280 ≤ ww →
      (ww / 2 < t.left + t.width / 2 →
        (positionInfoBoxGlobal ww wh t mw mh).side = Side.leftSide ∧
        (positionInfoBoxGlobal ww wh t mw mh).leftPos
          = max 10 (t.left - infoBoxWidthOf mw - 10)) ∧
      (¬ ww / 2 < t.left + t.width / 2 →
        (positionInfoBoxGlobal ww wh t mw mh).side = Side.rightSide ∧
        (positionInfoBoxGlobal ww wh t mw mh).leftPos
          = min (ww - infoBoxWidthOf mw - 10) (t.right + 10))) := by
  refine ⟨fun h => ⟨?_, ?_, ?_⟩, fun h => ⟨fun h2 => ⟨?_, ?_⟩, fun h2 => ⟨?_, ?_⟩⟩⟩
  · simp [positionInfoBoxGlobal, if_pos h]
  · simp [positionInfoBoxGlobal, if_pos h, min_comm]
  · simp only [positionInfoBoxGlobal, if_pos h]
    exact min_le_left _ _
  · simp [positionInfoBoxGlobal, if_neg h, if_pos h2]
  · simp [positionInfoBoxGlobal, if_neg h, if_pos h2]
  · simp [positionInfoBoxGlobal, if_neg h, if_neg h2]
  · simp [positionInfoBoxGlobal, if_neg h, if_neg h2]

/-- Witness for C1: both the wide-viewport branch (1400px) and the
narrow-viewport left-half branch (800px, anchor midpoint at 125) at
concrete inputs. -/
theorem positionInfoBox_horizontal_policy_witness :
    ((positionInfoBoxGlobal 1400 800 ⟨100, 200, 50, 40⟩ 200 100).side = Side.rightSide ∧
      (positionInfoBoxGlobal 1400 800 ⟨100, 200, 50, 40⟩ 200 100).leftPos
        = min ((Rect.mk 100 200 50 40).right + 10) (1400 - infoBoxWidthOf 200 - 10) ∧
      (positionInfoBoxGlobal 1400 800 ⟨100, 200, 50, 40⟩ 200 100).leftPos
        ≤ 1400 - infoBoxWidthOf 200 - 10) ∧
    ((positionInfoBoxGlobal 800 600 ⟨100, 200, 50, 40⟩ 200 100).side = Side.rightSide ∧
      (positionInfoBoxGlobal 800 600 ⟨100, 200, 50, 40⟩ 200 100).leftPos
        = min (800 - infoBoxWidthOf 200 - 10) ((Rect.mk 100 200 50 40).right + 10)) :=
  ⟨(positionInfoBox_horizontal_policy 1400 800 ⟨100, 200, 50, 40⟩ 200 100).1 (by norm_num),
   ((positionInfoBox_horizontal_policy 800 600 ⟨100, 200, 50, 40⟩ 200 100).2
      (by norm_num)).2 (by norm_num [Rect.right])⟩

/-- C2 counterexample: with viewport height 100 and an effective box height
of 180 the clamp interval `[10, viewportHeight - boxHeight - 10] = [10, -90]`
is empty, yet the code still outputs top `= 10`, which does not lie in that
interval — refuting the claim for arbitrary viewport sizes. -/
theorem positionInfoBox_vertical_cex :
    (positionInfoBoxGlobal 800 100 ⟨0, 0, 10, 10⟩ 240 180).topPos = 10 ∧
    ¬ ((positionInfoBoxGlobal 800 100 ⟨0, 0, 10, 10⟩ 240 180).topPos
        ≤ 100 - infoBoxHeightOf 180 - 10) := by
  constructor <;> norm_num [positionInfoBoxGlobal, infoBoxHeightOf, infoBoxWidthOf]

/-- C2 (amended): whenever the clamp interval is nonempty, i.e.
`10 ≤ viewportHeight - boxHeight - 10`, the final top coordinate lies in
`[10, viewportHeight - boxHeight - 10]`, for every anchor position. -/
theorem positionInfoBox_vertical_clamped (ww wh : ℚ) (t : Rect) (mw mh : ℚ)
    (h : 10 ≤ wh - infoBoxHeightOf mh - 10) :
    10 ≤ (positionInfoBoxGlobal ww wh t mw mh).topPos ∧
    (positionInfoBoxGlobal ww wh t mw mh).topPos ≤ wh - infoBoxHeightOf mh - 10 := by
  have htop : (positionInfoBoxGlobal ww wh t mw mh).topPos
      = max 10 (min (wh - infoBoxHeightOf mh - 10)
          (t.top + t.height / 2 - infoBoxHeightOf mh / 2)) := by
    simp only [positionInfoBoxGlobal]
  rw [htop]
  exact ⟨le_max_left _ _, max_le h (min_le_left _ _)⟩

/-- Witness for C2's amended theorem at a concrete viewport (height 800,
box height 180, anchor near the top edge). -/
theorem positionInfoBox_vertical_clamped_witness :
    10 ≤ (positionInfoBoxGlobal 1400 800 ⟨100, 0, 50, 40⟩ 240 180).topPos ∧
    (positionInfoBoxGlobal 1400 800 ⟨100, 0, 50, 40⟩ 240 180).topPos
      ≤ 800 - infoBoxHeightOf 180 - 10 :=
  positionInfoBox_vertical_clamped 1400 800 ⟨100, 0, 50, 40⟩ 240 180 (by norm_num [infoBoxHeightOf])

/-! ## The Storylane preloader (src/unnamed preloader script)

State of the preloader: `status` embeds `window.storylanePreloadStatus`
(a JavaScript object read with bracket lookup, so an absent key reads as a
falsy `undefined`, embedded as `Option.getD _ false`), and `bodyFrames`
records the `data-agent-id` keys of the `.storylane-preloader` iframes
appended to `document.body`, in attachment order. -/

/-- Embedding of the `storylaneUrls` map. -/
def storylaneUrls (agentId : String) : Option String :=
  if agentId = "po-agent" then
    some "https://app.storylane.io/demo/d9xx3md7cyhg?embed=inline"
  else if agentId = "onboarding-agent" then
    some "https://app.storylane.io/demo/daptmkw6awmo?embed=inline"
  else if agentId = "interview-agent" then
    some "https://app.storylane.io/demo/dhhssqjljjan?embed=inline"
  else if agentId = "claim-agent" then
    some "https://app.storylane.io/demo/1qaq6ksdkphn?embed=inline"
  else none

/-- The four agent keys with a mapped URL (the keys of
`window.storylanePreloadStatus` and `storylaneUrls`). -/
def knownAgentIds : List String :=
  ["po-agent", "onboarding-agent", "interview-agent", "claim-agent"]

/-- Preloader-visible DOM/global state. -/
structure PreloadState where
  status : List (String × Bool)
  bodyFrames : List String
deriving DecidableEq, Repr

/-- The initial `window.storylanePreloadStatus` literal: all four keys
map to `false`. -/
def initialPreloadStatus : List (String × Bool) :=
  [("po-agent", false), ("onboarding-agent", false),
   ("interview-agent", false), ("claim-agent", false)]

/-- `window.storylanePreloadStatus[agentId]` with JavaScript semantics:
an absent key reads as falsy. -/
def statusOf (s : PreloadState) (agentId : String) : Bool :=
  (s.status.lookup agentId).getD false

/-- JavaScript object assignment `status[k] = v`: overwrite the first
binding of `k` in place, or append a fresh binding. -/
def setStatus : List (String × Bool) → String → Bool → List (String × Bool)
  | [], k, v => [(k, v)]
  | (k2, v2) :: rest, k, v =>
    if k2 = k then (k, v) :: rest else (k2, v2) :: setStatus rest k v

/-- Embedding of `preloadStorylaneDemos(agentId)` (preloader script lines
23-52): bail out on a falsy id, an already-set status flag, or an unmapped
key; otherwise append one hidden background iframe for `agentId` to
`document.body` and set the status flag.  The style/attribute decoration of
the frame does not affect the tracked state and is elided. -/
def preloadStorylaneDemos (s : PreloadState) (agentId : String) : PreloadState :=
  if agentId = "" ∨ statusOf s agentId = true then
    s
  else
    match storylaneUrls agentId with
    | none => s
    | some _ =>
      { status := setStatus s.status agentId true,
        bodyFrames := s.bodyFrames ++ [agentId] }

theorem lookup_setStatus_self (l : List (String × Bool)) (k : String) (v : Bool) :
    (setStatus l k v).lookup k = some v := by
  induction l with
  | nil => simp [setStatus]
  | cons hd rest ih =>
    obtain ⟨k2, v2⟩ := hd
    by_cases hk : k2 = k
    · simp [setStatus, hk, List.lookup]
    · simp only [setStatus, if_neg hk, List.lookup]
      have : (k == k2) = false := by
        simp [beq_iff_eq]
        exact fun hc => hk hc.symm
      simp [this, ih]

theorem lookup_setStatus_ne (l : List (String × Bool)) (k k3 : String) (v : Bool)
    (hne : k3 ≠ k) : (setStatus l k v).lookup k3 = l.lookup k3 := by
  have hb : (k3 == k) = false := beq_eq_false_iff_ne.mpr hne
  induction l with
  | nil => simp [setStatus, List.lookup, hb]
  | cons hd rest ih =>
    obtain ⟨k2, v2⟩ := hd
    by_cases hk : k2 = k
    · subst hk
      simp [setStatus, List.lookup, hb]
    · simp only [setStatus, if_neg hk, List.lookup]
      by_cases h3 : k3 = k2
      · simp [h3]
      · have hb2 : (k3 == k2) = false := beq_eq_false_iff_ne.mpr h3
        simp [hb2, ih]

/-- The status flag of any key is monotone under `preloadStorylaneDemos`:
once `true`, no preload call resets it. -/
theorem statusOf_preload_mono (s : PreloadState) (a b : String)
    (h : statusOf s a = true) : statusOf (preloadStorylaneDemos s b) a = true := by
  unfold preloadStorylaneDemos
  split
  · exact h
  · cases hurl : storylaneUrls b with
    | none => simpa [hurl] using h
    | some u =>
      simp only [hurl]
      by_cases hab : a = b
      · subst hab
        simp [statusOf, lookup_setStatus_self]
      · simpa [statusOf, lookup_setStatus_ne _ _ _ _ hab] using h

/-- Every known agent id has a mapped URL. -/
theorem storylaneUrls_isSome_of_known (a : String) (h : a ∈ knownAgentIds) :
    ∃ u, storylaneUrls a = some u := by
  simp only [knownAgentIds, List.mem_cons, List.not_mem_nil, or_false] at h
  rcases h with h | h | h | h <;> subst h <;> exact ⟨_, rfl⟩

/-- C3: `preloadStorylaneDemos` is idempotent for every known key.  From a
state where the key is not yet flagged, the second call is a no-op (the
call composite equals the single call), a key with no background frame yet
ends up with exactly one, and the per-key flag, once `true`, is never reset
by any later preload call. -/
theorem preloadStorylaneDemos_idempotent (s : PreloadState) (a : String)
    (hknown : a ∈ knownAgentIds) (hflag : statusOf s a = false) :
    preloadStorylaneDemos (preloadStorylaneDemos s a) a = preloadStorylaneDemos s a ∧
    (s.bodyFrames.count a = 0 →
      (preloadStorylaneDemos (preloadStorylaneDemos s a) a).bodyFrames.count a = 1) ∧
    (∀ s2 b, statusOf s2 a = true →
      statusOf (preloadStorylaneDemos s2 b) a = true) := by
  obtain ⟨u, hurl⟩ := storylaneUrls_isSome_of_known a hknown
  have hne : a ≠ "" := by
    rintro rfl
    simp [knownAgentIds] at hknown
  have hstep : preloadStorylaneDemos s a =
      { status := setStatus s.status a true, bodyFrames := s.bodyFrames ++ [a] } := by
    unfold preloadStorylaneDemos
    rw [if_neg (by simp [hne, hflag]), hurl]
  have hflag2 : statusOf (preloadStorylaneDemos s a) a = true := by
    rw [hstep]
    simp [statusOf, lookup_setStatus_self]
  have hsecond : preloadStorylaneDemos (preloadStorylaneDemos s a) a
      = preloadStorylaneDemos s a := by
    generalize hps : preloadStorylaneDemos s a = s1 at hflag2 ⊢
    unfold preloadStorylaneDemos
    rw [if_pos (Or.inr hflag2)]
  refine ⟨hsecond, fun hcount => ?_, fun s2 b h => statusOf_preload_mono s2 a b h⟩
  rw [hsecond, hstep]
  simp [List.count_append, hcount]

/-- Witness for C3 at the initial page state and the key `po-agent`. -/
theorem preloadStorylaneDemos_idempotent_witness :
    preloadStorylaneDemos (preloadStorylaneDemos ⟨initialPreloadStatus, []⟩ "po-agent")
        "po-agent"
      = preloadStorylaneDemos ⟨initialPreloadStatus, []⟩ "po-agent" ∧
    (([] : List String).count "po-agent" = 0 →
      (preloadStorylaneDemos (preloadStorylaneDemos ⟨initialPreloadStatus, []⟩ "po-agent")
          "po-agent").bodyFrames.count "po-agent" = 1) ∧
    (∀ s2 b, statusOf s2 "po-agent" = true →
      statusOf (preloadStorylaneDemos s2 b) "po-agent" = true) :=
  preloadStorylaneDemos_idempotent ⟨initialPreloadStatus, []⟩ "po-agent"
    (by decide) (by decide)

/-- C8: for any key outside the four known ones, `preloadStorylaneDemos`
returns the state unchanged: no frame is attached, no flag is set, and (the
function being total) no error is surfaced. -/
theorem preloadStorylaneDemos_unknown_noop (s : PreloadState) (a : String)
    (h : a ∉ knownAgentIds) : preloadStorylaneDemos s a = s := by
  simp only [knownAgentIds, List.mem_cons, List.not_mem_nil, or_false, not_or] at h
  obtain ⟨h1, h2, h3, h4⟩ := h
  unfold preloadStorylaneDemos
  split
  · rfl
  · rw [show storylaneUrls a = none by simp [storylaneUrls, h1, h2, h3, h4]]

/-- Witness for C8 at the key `unknown-key` and the initial page state. -/
theorem preloadStorylaneDemos_unknown_noop_witness :
    preloadStorylaneDemos ⟨initialPreloadStatus, []⟩ "unknown-key"
      = ⟨initialPreloadStatus, []⟩ :=
  preloadStorylaneDemos_unknown_noop ⟨initialPreloadStatus, []⟩ "unknown-key" (by decide)

/-! ## `swapPreloadedIframe` (preloader script, lines 88-131) -/

/-- A child of a modal's `.sl-embed` container, as far as the swap logic
can tell: either the static embed iframe shipped in the markup or a clone
of the background preloader frame for some agent key. -/
inductive EmbedNode
  | staticFrame
  | clonedFrame (agentId : String)
deriving DecidableEq, Repr

/-- DOM state visible to `swapPreloadedIframe`.  `preloadFrames` lists the
`data-agent-id` keys of the off-screen `.storylane-preloader` iframes
attached to `document.body`; `containers` is keyed by modal element id,
with `none` for a modal lacking a `.sl-embed` child and `some nodes` for
the iframe children of its `.sl-embed` container in document order.  A
modal id absent from `containers` is absent from the document. -/
structure SwapState where
  preloadFrames : List String
  containers : List (String × Option (List EmbedNode))
deriving DecidableEq, Repr

/-- The `modalMap` literal, written identically in the preloader's
`swapPreloadedIframe` and in `showStoryLaneModal` of
slides-interactive.js. -/
def modalMap (agentId : String) : Option String :=
  if agentId = "po-agent" then some "storylane-modal-po"
  else if agentId = "onboarding-agent" then some "storylane-modal-onboarding"
  else if agentId = "interview-agent" then some "storylane-modal-interview"
  else if agentId = "claim-agent" then some "storylane-modal-claim"
  else none

/-- `targetContainer.querySelector('iframe')` followed by `.remove()`:
drop the first iframe child, if any. -/
def removeFirstIframe : List EmbedNode → List EmbedNode
  | [] => []
  | _ :: rest => rest

/-- Replace the contents of the `.sl-embed` container of the modal with
element id `k` (DOM element ids are unique, so this touches one entry). -/
def setContainer : List (String × Option (List EmbedNode)) → String →
    List EmbedNode → List (String × Option (List EmbedNode))
  | [], _, _ => []
  | (k2, v2) :: rest, k, v =>
    if k2 = k then (k2, some v) :: setContainer rest k v
    else (k2, v2) :: setContainer rest k v

/-- Embedding of `swapPreloadedIframe(agentId)` (preloader script lines
88-131): look up the background preloader frame, resolve the modal and its
`.sl-embed` container, remove the container's existing iframe, append a
clone of the background frame, and report `true`; any failed lookup
reports `false` with the DOM untouched.  The style/attribute rewrites on
the clone do not affect the tracked state and are elided. -/
def swapPreloadedIframe (s : SwapState) (agentId : String) : Bool × SwapState :=
  if agentId ∈ s.preloadFrames then
    match modalMap agentId with
    | none => (false, s)
    | some modalId =>
      match s.containers.lookup modalId with
      | none => (false, s)
      | some none => (false, s)
      | some (some nodes) =>
        let cs := setContainer s.containers modalId
          (removeFirstIframe nodes ++ [EmbedNode.clonedFrame agentId])
        (true, { s with containers := cs })
  else (false, s)

theorem lookup_setContainer_self (cs : List (String × Option (List EmbedNode)))
    (k : String) (v : List EmbedNode) (w : Option (List EmbedNode))
    (h : cs.lookup k = some w) : (setContainer cs k v).lookup k = some (some v) := by
  induction cs with
  | nil => simp [List.lookup] at h
  | cons hd rest ih =>
    obtain ⟨k2, v2⟩ := hd
    by_cases hk : k2 = k
    · subst hk
      simp [setContainer, List.lookup]
    · have hb : (k == k2) = false := beq_eq_false_iff_ne.mpr (fun hc => hk hc.symm)
      simp only [List.lookup, hb] at h
      simp only [setContainer, if_neg hk, List.lookup, hb]
      exact ih h

/-- C7: activation through a preloaded frame.  When a background frame for
`agentId` exists and the mapped modal has a `.sl-embed` container, the swap
reports `true`, leaves the off-screen background frame attached
(`preloadFrames` unchanged), puts a clone for `agentId` into the container
(after removing the container's first iframe), and a later re-activation on
the resulting state succeeds again; with no background frame for `agentId`
the swap reports `false` and leaves the whole DOM state unchanged, so the
destination's static markup loads directly. -/
theorem swapPreloadedIframe_spec (s : SwapState) (a : String) :
    ((a ∈ s.preloadFrames) → ∀ mid, modalMap a = some mid →
      ∀ nodes, s.containers.lookup mid = some (some nodes) →
        (swapPreloadedIframe s a).1 = true ∧
        (swapPreloadedIframe s a).2.preloadFrames = s.preloadFrames ∧
        (swapPreloadedIframe s a).2.containers.lookup mid
          = some (some (removeFirstIframe nodes ++ [EmbedNode.clonedFrame a])) ∧
        (swapPreloadedIframe (swapPreloadedIframe s a).2 a).1 = true) ∧
    (a ∉ s.preloadFrames → swapPreloadedIframe s a = (false, s)) := by
  constructor
  · intro hmem mid hmid nodes hlook
    have hswap : swapPreloadedIframe s a
        = (true, { s with
            containers := setContainer s.containers mid
              (removeFirstIframe nodes ++ [EmbedNode.clonedFrame a]) }) := by
      unfold swapPreloadedIframe
      rw [if_pos hmem, hmid]
      simp [hlook]
    have hlook2 : (setContainer s.containers mid
          (removeFirstIframe nodes ++ [EmbedNode.clonedFrame a])).lookup mid
        = some (some (removeFirstIframe nodes ++ [EmbedNode.clonedFrame a])) :=
      lookup_setContainer_self s.containers mid _ _ hlook
    refine ⟨by rw [hswap], by rw [hswap], by rw [hswap]; exact hlook2, ?_⟩
    rw [hswap]
    simp [swapPreloadedIframe, hmem, hmid, hlook2]
  · intro hmem
    unfold swapPreloadedIframe
    rw [if_neg hmem]

/-- Witness for C7: both branches at concrete states — a preloaded
`po-agent` frame with a one-iframe `.sl-embed` container, and a state with
no background frame at all. -/
theorem swapPreloadedIframe_spec_witness :
    ((swapPreloadedIframe
        ⟨["po-agent"], [("storylane-modal-po", some [EmbedNode.staticFrame])]⟩
        "po-agent").1 = true ∧
      (swapPreloadedIframe
        ⟨["po-agent"], [("storylane-modal-po", some [EmbedNode.staticFrame])]⟩
        "po-agent").2.preloadFrames = ["po-agent"] ∧
      (swapPreloadedIframe
        ⟨["po-agent"], [("storylane-modal-po", some [EmbedNode.staticFrame])]⟩
        "po-agent").2.containers.lookup "storylane-modal-po"
        = some (some (removeFirstIframe [EmbedNode.staticFrame]
            ++ [EmbedNode.clonedFrame "po-agent"])) ∧
      (swapPreloadedIframe
        (swapPreloadedIframe
          ⟨["po-agent"], [("storylane-modal-po", some [EmbedNode.staticFrame])]⟩
          "po-agent").2 "po-agent").1 = true) ∧
    swapPreloadedIframe
        ⟨[], [("storylane-modal-po", some [EmbedNode.staticFrame])]⟩ "po-agent"
      = (false, ⟨[], [("storylane-modal-po", some [EmbedNode.staticFrame])]⟩) :=
  ⟨(swapPreloadedIframe_spec
      ⟨["po-agent"], [("storylane-modal-po", some [EmbedNode.staticFrame])]⟩
      "po-agent").1 (by decide) "storylane-modal-po" (by decide)
      [EmbedNode.staticFrame] (by decide),
   (swapPreloadedIframe_spec
      ⟨[], [("storylane-modal-po", some [EmbedNode.staticFrame])]⟩
      "po-agent").2 (by decide)⟩

/-! ## `showStoryLaneModal` / `closeStoryLaneModals`
(slides-interactive.js, lines 1121-1193) -/

/-- Modal-related DOM state: `modals` lists the element ids of the
`.storylane-modal` elements in the document, `active` the sublist of those
currently carrying the `active` class, plus the `document.body` overflow
lock and the Reveal keyboard flag the two functions toggle. -/
structure ModalState where
  modals : List String
  active : List String
  bodyOverflowHidden : Bool
  keyboardEnabled : Bool
deriving DecidableEq, Repr

/-- Embedding of `closeStoryLaneModals()` (slides-interactive.js lines
1181-1193): remove `active` from every `.storylane-modal`, restore body
scrolling and Reveal keyboard navigation. -/
def closeStoryLaneModals (s : ModalState) : ModalState :=
  { s with active := [], bodyOverflowHidden := false, keyboardEnabled := true }

/-- Embedding of `showStoryLaneModal(agentId)` (slides-interactive.js
lines 1121-1176): close every open modal first, then resolve the modal id
through `modalMap`; if that modal exists, lock body scrolling, add the
`active` class to it and disable Reveal keyboard navigation.  The
iframe-swap attempt inside the function mutates only the `.sl-embed`
containers (modelled by `swapPreloadedIframe` on `SwapState`) and touches
no `active` class, so it is elided from this projection of the state. -/
def showStoryLaneModal (s : ModalState) (agentId : String) : ModalState :=
  let s1 := closeStoryLaneModals s
  match modalMap agentId with
  | none => s1
  | some modalId =>
    if modalId ∈ s1.modals then
      { s1 with active := [modalId], bodyOverflowHidden := true, keyboardEnabled := false }
    else s1

/-- C4: mutual exclusion of destination panels.  After any
`showStoryLaneModal` call at most one modal is active; `closeStoryLaneModals`
leaves none active; and `activate(x)` followed by `activate(y)` leaves
exactly y's panel active whenever y maps to a modal present in the
document — x's panel was closed on the way. -/
theorem showStoryLaneModal_mutex (s : ModalState) (x y : String) :
    (showStoryLaneModal s y).active.length ≤ 1 ∧
    (closeStoryLaneModals s).active = [] ∧
    (∀ mid, modalMap y = some mid → mid ∈ s.modals →
      (showStoryLaneModal (showStoryLaneModal s x) y).active = [mid]) := by
  have hmodals : ∀ s2 z, (showStoryLaneModal s2 z).modals = s2.modals := by
    intro s2 z
    unfold showStoryLaneModal closeStoryLaneModals
    cases modalMap z with
    | none => rfl
    | some mid => by_cases h : mid ∈ s2.modals <;> simp [h]
  refine ⟨?_, rfl, fun mid hmid hmem => ?_⟩
  · unfold showStoryLaneModal closeStoryLaneModals
    cases modalMap y with
    | none => simp
    | some mid => by_cases h : mid ∈ s.modals <;> simp [h]
  · have hmem2 : mid ∈ (showStoryLaneModal s x).modals := by
      rw [hmodals]; exact hmem
    generalize (showStoryLaneModal s x) = s2 at hmem2
    unfold showStoryLaneModal closeStoryLaneModals
    rw [hmid]
    simp [hmem2]

/-- Witness for C4: activating `po-agent` then `onboarding-agent` on a
document holding all four modals leaves exactly the onboarding modal
active. -/
theorem showStoryLaneModal_mutex_witness :
    (showStoryLaneModal
      (showStoryLaneModal
        ⟨["storylane-modal-po", "storylane-modal-onboarding",
          "storylane-modal-interview", "storylane-modal-claim"], [], false, true⟩
        "po-agent")
      "onboarding-agent").active = ["storylane-modal-onboarding"] :=
  (showStoryLaneModal_mutex
      ⟨["storylane-modal-po", "storylane-modal-onboarding",
        "storylane-modal-interview", "storylane-modal-claim"], [], false, true⟩
      "po-agent" "onboarding-agent").2.2 "storylane-modal-onboarding"
    (by decide) (by decide)

/-! ## Hover lifecycle of one info box
(`setupGlobalHoverHandlers`, slide-consistency.js lines 60-152)

The handlers for one anchor/info-box pair are embedded as a step function
on an explicit state.  `displayed` is `style.display` being `block` rather
than `none`; `hoverVisible` and `pinned` are the `hover-visible` and
`active` classes; `pointerOverBox` is whether `infoBox.matches(km)` holds
for the `:hover` pseudo-class; `timers` holds the pending `setTimeout`
callbacks as (scheduling time, kind) pairs; `now` is the clock.  A `fire`
event runs a pending callback and is a no-op (a stale fire) unless the
timer is pending and its fixed delay has elapsed. -/

/-- The two `setTimeout` callback shapes in the hover handlers. -/
inductive TimerKind
  | grace
  | hideCheck
deriving DecidableEq, Repr

/-- The fixed delay each callback is scheduled with: 200 ms for the
anchor-mouseleave grace check, 300 ms for the trailing hide check. -/
def timerDelay : TimerKind → Nat
  | TimerKind.grace => 200
  | TimerKind.hideCheck => 300

/-- Visibility state of one info box plus the pending timers. -/
structure HoverState where
  displayed : Bool
  hoverVisible : Bool
  pinned : Bool
  pointerOverBox : Bool
  timers : List (Nat × TimerKind)
  now : Nat
deriving DecidableEq, Repr

/-- The DOM events the handlers react to, plus timer expiry.
`enterAnchor`/`leaveAnchor` are `mouseenter`/`mouseleave` on the funnel
level, `enterBox`/`leaveBox` on the info box itself, `closeClick` the
close-button handler; `fire sched k` is the expiry of the callback
scheduled at time `sched` with kind `k`. -/
inductive HoverEvent
  | enterAnchor
  | leaveAnchor
  | enterBox
  | leaveBox
  | closeClick
  | fire (sched : Nat) (k : TimerKind)
deriving DecidableEq, Repr

/-- One step of the hover machine at clock time `t`.

* anchor `mouseenter` (lines 71-90): `display = block`, add
  `hover-visible` (positioning is the pure `positionInfoBoxGlobal`);
* anchor `mouseleave` (lines 92-116): schedule the 200 ms grace callback,
  which, when it fires with the pointer not over the box, removes
  `hover-visible` and schedules a 300 ms hide check;
* box `mouseenter`/`mouseleave` (lines 121-134): toggle `hover-visible`
  with the pointer flag; leaving schedules a 300 ms hide check;
* close click (lines 139-149): drop `hover-visible` and `active`, schedule
  a 300 ms hide check;
* the hide check sets `display = none` only if the box carries neither
  `hover-visible` nor `active` at expiry. -/
def hoverStep (s0 : HoverState) (t : Nat) (e : HoverEvent) : HoverState :=
  let s := { s0 with now := t }
  match e with
  | HoverEvent.enterAnchor => { s with displayed := true, hoverVisible := true }
  | HoverEvent.leaveAnchor => { s with timers := (t, TimerKind.grace) :: s.timers }
  | HoverEvent.enterBox => { s with pointerOverBox := true, hoverVisible := true }
  | HoverEvent.leaveBox =>
      { s with pointerOverBox := false, hoverVisible := false,
               timers := (t, TimerKind.hideCheck) :: s.timers }
  | HoverEvent.closeClick =>
      { s with hoverVisible := false, pinned := false,
               timers := (t, TimerKind.hideCheck) :: s.timers }
  | HoverEvent.fire sched k =>
      if (sched, k) ∈ s.timers ∧ sched + timerDelay k ≤ t then
        let s1 := { s with timers := s.timers.erase (sched, k) }
        match k with
        | TimerKind.grace =>
            if s1.pointerOverBox then s1
            else { s1 with hoverVisible := false,
                           timers := (t, TimerKind.hideCheck) :: s1.timers }
        | TimerKind.hideCheck =>
            if s1.hoverVisible = false ∧ s1.pinned = false then
              { s1 with displayed := false }
            else s1
      else s

/-- Run a timed event list through `hoverStep`. -/
def hoverRun : HoverState → List (Nat × HoverEvent) → HoverState
  | s, [] => s
  | s, te :: rest => hoverRun (hoverStep s te.1 te.2) rest

/-- The page-load state of an info box: hidden, unflagged, no timers. -/
def hoverInit : HoverState :=
  { displayed := false, hoverVisible := false, pinned := false,
    pointerOverBox := false, timers := [], now := 0 }

/-- C5: the only step that takes an info box out of layout is the expiry
of a pending 300 ms hide-check callback, and it fires only when the box
carries neither `hover-visible` nor `active` at that moment; no
mouse/click handler ever hides a displayed box directly. -/
theorem hoverStep_hide_needs_flags_clear (s : HoverState) (t : Nat) (e : HoverEvent)
    (hd : s.displayed = true) (hd2 : (hoverStep s t e).displayed = false) :
    ∃ sched, e = HoverEvent.fire sched TimerKind.hideCheck ∧
      (sched, TimerKind.hideCheck) ∈ s.timers ∧ sched + 300 ≤ t ∧
      s.hoverVisible = false ∧ s.pinned = false := by
  cases e with
  | enterAnchor => simp [hoverStep] at hd2
  | leaveAnchor => simp [hoverStep, hd] at hd2
  | enterBox => simp [hoverStep, hd] at hd2
  | leaveBox => simp [hoverStep, hd] at hd2
  | closeClick => simp [hoverStep, hd] at hd2
  | fire sched k =>
    by_cases hcond : (sched, k) ∈ s.timers ∧ sched + timerDelay k ≤ t
    · cases k with
      | grace =>
        by_cases hp : s.pointerOverBox <;>
          simp [hoverStep, hcond, hp, hd] at hd2
      | hideCheck =>
        by_cases hflags : s.hoverVisible = false ∧ s.pinned = false
        · exact ⟨sched, rfl, hcond.1, hcond.2, hflags.1, hflags.2⟩
        · simp [hoverStep, hcond, hflags, hd] at hd2
    · simp [hoverStep, hcond, hd] at hd2

/-- Witness for C5: a pending hide check from time 0 firing at 300 on an
unflagged displayed box. -/
theorem hoverStep_hide_needs_flags_clear_witness :
    ∃ sched, HoverEvent.fire 0 TimerKind.hideCheck
        = HoverEvent.fire sched TimerKind.hideCheck ∧
      (sched, TimerKind.hideCheck)
          ∈ (HoverState.mk true false false false [(0, TimerKind.hideCheck)] 0).timers ∧
      sched + 300 ≤ 300 ∧
      (HoverState.mk true false false false [(0, TimerKind.hideCheck)] 0).hoverVisible
          = false ∧
      (HoverState.mk true false false false [(0, TimerKind.hideCheck)] 0).pinned = false :=
  hoverStep_hide_needs_flags_clear
    (HoverState.mk true false false false [(0, TimerKind.hideCheck)] 0) 300
    (HoverEvent.fire 0 TimerKind.hideCheck) (by decide) (by decide)

/-- C6 counterexample trace: show, leave the anchor at 10, re-enter the
anchor at 100 (before the 200 ms grace timer fires), then let both timers
expire on schedule. -/
def anchorFlickerTrace : List (Nat × HoverEvent) :=
  [(0, HoverEvent.enterAnchor), (10, HoverEvent.leaveAnchor),
   (100, HoverEvent.enterAnchor), (210, HoverEvent.fire 10 TimerKind.grace),
   (510, HoverEvent.fire 210 TimerKind.hideCheck)]

/-- C6 counterexample: after the last real pointer interaction — the
re-`mouseenter` on the anchor at time 100, which leaves the box displayed —
the pending grace timer still fires at 210, clears `hover-visible`
(the pointer is on the anchor, not the box), and its hide check at 510
sets `display = none`: the anchor-side hide sequence is not cancelled by a
subsequent `mouseenter` on the anchor, and the final displayed state
contradicts the last real interaction. -/
theorem hover_anchor_reenter_cex :
    (hoverRun hoverInit (anchorFlickerTrace.take 3)).displayed = true ∧
    (hoverRun hoverInit anchorFlickerTrace).displayed = false := by
  constructor <;> decide

/-- C6 (amended): for the info box itself the cancellation works — a hide
check scheduled by `mouseleave` on the box is neutralised by a
`mouseenter` on the box before it fires, because re-entering restores
`hover-visible`, so the box stays displayed: the final state matches the
last real interaction on the box. -/
theorem hover_box_reenter_cancels (s : HoverState) (t0 t1 t2 : Nat)
    (hd : s.displayed = true) :
    (hoverStep (hoverStep (hoverStep s t0 HoverEvent.leaveBox) t1 HoverEvent.enterBox)
        t2 (HoverEvent.fire t0 TimerKind.hideCheck)).displayed = true := by
  by_cases h2 : t0 + timerDelay TimerKind.hideCheck ≤ t2 <;>
    simp [hoverStep, h2, hd]

/-- Witness for C6's amended theorem: leave the box at 0, re-enter at 100,
the hide check expires at 300, the box is still displayed. -/
theorem hover_box_reenter_cancels_witness :
    (hoverStep
      (hoverStep
        (hoverStep (HoverState.mk true true false true [] 0) 0 HoverEvent.leaveBox)
        100 HoverEvent.enterBox)
      300 (HoverEvent.fire 0 TimerKind.hideCheck)).displayed = true :=
  hover_box_reenter_cancels (HoverState.mk true true false true [] 0) 0 100 300 rfl

/-! ## Anchor-class to info-box resolution
(anchor `mouseenter` handler, slide-consistency.js lines 70-90)

The handler takes the first class starting with `funnel-level-`, splits it
on dashes, applies JavaScript `parseInt` to the last segment, and looks up
the element with id `info-box-` followed by that number minus one
(`NaN - 1` is `NaN`, so a non-parsing segment yields the id
`info-box-NaN`).  String splitting and integer parsing are embedded as
structural recursions over character lists with JavaScript semantics. -/

/-- `cls.split(dash)` on a character list: split on every dash, keeping
empty segments, never returning an empty list. -/
def splitOnDash : List Char → List (List Char)
  | [] => [[]]
  | ch :: rest =>
    if ch = '-' then [] :: splitOnDash rest
    else
      match splitOnDash rest with
      | [] => [[ch]]
      | seg :: segs => (ch :: seg) :: segs

/-- `levelClass.split(dash).pop()`: the final dash-separated segment. -/
def lastSegmentAfterDash (s : String) : List Char :=
  (splitOnDash s.data).getLastD []

/-- Digit run to number, radix 10. -/
def digitsToNat (l : List Char) : Nat :=
  l.foldl (fun acc ch => 10 * acc + (ch.toNat - 48)) 0

/-- Hexadecimal digit test, both cases, as `parseInt` accepts in radix
16: `0-9`, `a-f` (97-102), `A-F` (65-70). -/
def isHexDigitJS (ch : Char) : Bool :=
  ch.isDigit || decide (97 ≤ ch.toNat ∧ ch.toNat ≤ 102)
    || decide (65 ≤ ch.toNat ∧ ch.toNat ≤ 70)

/-- Value of one hexadecimal digit. -/
def hexVal (ch : Char) : Nat :=
  if ch.isDigit then ch.toNat - 48
  else if 97 ≤ ch.toNat ∧ ch.toNat ≤ 102 then ch.toNat - 87
  else if 65 ≤ ch.toNat ∧ ch.toNat ≤ 70 then ch.toNat - 55
  else 0

/-- Hex digit run to number, radix 16. -/
def hexToNat (l : List Char) : Nat :=
  l.foldl (fun acc ch => 16 * acc + hexVal ch) 0

/-- The magnitude part of JavaScript `parseInt` with no radix argument:
a `0x`/`0X` prefix switches to radix 16 and takes the maximal run of hex
digits after the prefix; otherwise the maximal run of leading decimal
digits is taken, radix 10.  `none` is `NaN` (no digits in the chosen
radix). -/
def parseUnsignedJS (l : List Char) : Option Nat :=
  match l with
  | '0' :: x :: rest =>
    if x = 'x' ∨ x = 'X' then
      let ds := rest.takeWhile isHexDigitJS
      if ds.isEmpty then none else some (hexToNat ds)
    else
      let ds := ('0' :: x :: rest).takeWhile Char.isDigit
      if ds.isEmpty then none else some (digitsToNat ds)
  | _ =>
    let ds := l.takeWhile Char.isDigit
    if ds.isEmpty then none else some (digitsToNat ds)

/-- JavaScript `parseInt(s)`: an optional sign followed by either a
`0x`-prefixed hex run (radix 16 autodetection, so `0x3` parses as 3) or a
maximal run of leading decimal digits; `none` is `NaN`.  Trailing
characters outside the radix are ignored, e.g. `parseInt` of `3abc` is
`3`.  Leading-whitespace skipping is elided: class-list tokens contain
none. -/
def parseIntJS (l : List Char) : Option Int :=
  match l with
  | [] => none
  | ch :: rest =>
    if ch = '-' then (parseUnsignedJS rest).map (fun n => -(n : Int))
    else if ch = '+' then (parseUnsignedJS rest).map (fun n => (n : Int))
    else (parseUnsignedJS (ch :: rest)).map (fun n => (n : Int))

/-- The id `info-box-` followed by `levelNum - 1`, with the JavaScript
template semantics: a `NaN` parse interpolates as the text `NaN`. -/
def derivedInfoBoxId (levelClass : String) : String :=
  match parseIntJS (lastSegmentAfterDash levelClass) with
  | none => "info-box-NaN"
  | some n => "info-box-" ++ toString (n - 1)

/-- `cls.startsWith` applied to the `funnel-level-` marker. -/
def isFunnelLevelClass (c : String) : Bool :=
  "funnel-level-".data.isPrefixOf c.data

/-- The info-box state the `mouseenter` handler mutates: `style.display`
being `block`, the `hover-visible` class, and whether
`positionInfoBoxGlobal` has been invoked on the element. -/
structure InfoBoxView where
  displayBlock : Bool
  hoverVisible : Bool
  positioned : Bool
deriving DecidableEq, Repr

/-- Replace the state of the element with id `k` (ids are unique). -/
def setBox : List (String × InfoBoxView) → String → InfoBoxView →
    List (String × InfoBoxView)
  | [], _, _ => []
  | (k2, b2) :: rest, k, b =>
    if k2 = k then (k2, b) :: setBox rest k b else (k2, b2) :: setBox rest k b

/-- What the handler does to the resolved info box: `display = block`,
add `hover-visible`, position it. -/
def showInfoBox (b : InfoBoxView) : InfoBoxView :=
  { b with displayBlock := true, hoverVisible := true, positioned := true }

/-- Embedding of the anchor `mouseenter` handler (slide-consistency.js
lines 70-90): find the first `funnel-level-` class, derive the info-box id
from its numeric suffix, and when an element with that id exists show and
position it; otherwise do nothing. -/
def funnelMouseenter (dom : List (String × InfoBoxView)) (classList : List String) :
    List (String × InfoBoxView) :=
  match classList.find? (fun c => isFunnelLevelClass c) with
  | none => dom
  | some levelClass =>
    match dom.lookup (derivedInfoBoxId levelClass) with
    | none => dom
    | some b => setBox dom (derivedInfoBoxId levelClass) (showInfoBox b)

/-- C9 counterexample: the classes `funnel-level-3abc` and
`funnel-level-0x3` are malformed (their suffixes are not numeric), yet
JavaScript `parseInt` reads the leading `3` of the first and
hex-autodetects `0x3` as 3 in the second, so the handler resolves
`info-box-2` and mutates it in both cases — refuting the claim that a
malformed class leaves every tooltip untouched. -/
theorem funnelMouseenter_malformed_cex :
    funnelMouseenter [("info-box-2", InfoBoxView.mk false false false)]
        ["funnel-level-3abc"]
      = [("info-box-2", InfoBoxView.mk true true true)] ∧
    funnelMouseenter [("info-box-2", InfoBoxView.mk false false false)]
        ["funnel-level-0x3"]
      = [("info-box-2", InfoBoxView.mk true true true)] := by
  constructor <;> decide

/-- C9 (amended): the handler resolves the tooltip id as `info-box-`
followed by `parseInt(lastSegment) - 1`, where `parseInt` accepts a
leading decimal digit run or a `0x`-prefixed hex run (so
`funnel-level-3abc` and `funnel-level-0x3` both resolve `info-box-2`) and
a digitless suffix derives the id `info-box-NaN`.  When no `funnel-level-`
class is present, or no element carries the derived id, the handler
returns without mutating anything (and, being total, without throwing);
when the element exists the handler sets `display = block` and
`hover-visible` on exactly that element and positions it. -/
theorem funnelMouseenter_resolution (dom : List (String × InfoBoxView))
    (classList : List String) :
    (classList.find? (fun c => isFunnelLevelClass c) = none →
      funnelMouseenter dom classList = dom) ∧
    (∀ cls, classList.find? (fun c => isFunnelLevelClass c) = some cls →
      (dom.lookup (derivedInfoBoxId cls) = none →
        funnelMouseenter dom classList = dom) ∧
      (∀ b, dom.lookup (derivedInfoBoxId cls) = some b →
        funnelMouseenter dom classList
          = setBox dom (derivedInfoBoxId cls) (showInfoBox b))) := by
  refine ⟨fun h => ?_, fun cls hcls => ⟨fun h => ?_, fun b hb => ?_⟩⟩
  · simp [funnelMouseenter, h]
  · simp [funnelMouseenter, hcls, h]
  · simp [funnelMouseenter, hcls, hb]

/-- Witness for C9's amended theorem: the well-formed class
`funnel-level-3` resolves `info-box-2` and shows it. -/
theorem funnelMouseenter_resolution_witness :
    funnelMouseenter [("info-box-2", InfoBoxView.mk false false false)]
        ["funnel-level-3"]
      = setBox [("info-box-2", InfoBoxView.mk false false false)]
          (derivedInfoBoxId "funnel-level-3")
          (showInfoBox (InfoBoxView.mk false false false)) :=
  ((funnelMouseenter_resolution [("info-box-2", InfoBoxView.mk false false false)]
      ["funnel-level-3"]).2 "funnel-level-3" (by decide)).2
    (InfoBoxView.mk false false false) (by decide)

end Fusefy
